import Mathlib

/-!
Shallow embedding of `src/crud/app.py` (kougen/fastapi-versions): the
CRUD route-group binder (`CRUDApiRouter`) and the registry/publisher
(`CRUDApi`), together with the pure helpers `construct_path`,
`get_tags`, `get_prefix` (modelled as `getPfx`), `format_entities` and
`convert2int`.  External collaborators (the pyrepositories store, the
pydantic models, the entity factory) are modelled as structures of
functions; exceptions are modelled with `Except String`.
-/

/-- A Python identifier value of static type `int | str`. -/
inductive Ident where
  | int (n : Int)
  | str (s : String)
  deriving DecidableEq, Repr

/-- Characters stripped by Python's `int(str)` around the numeral
(`str.strip` whitespace, ASCII part). -/
def isPySpace (c : Char) : Bool :=
  c = ' ' || c = '\t' || c = '\n' || c = '\r' || c = '\x0b' || c = '\x0c'

/-- After the first digit, Python's integer literal accepts further digits,
with single underscores allowed only between digits. -/
def pyDigitsRest : List Char → Bool
  | [] => true
  | c :: rest =>
    if c = '_' then
      match rest with
      | [] => false
      | d :: rest2 => d.isDigit && pyDigitsRest rest2
    else
      c.isDigit && pyDigitsRest rest

/-- A nonempty digit sequence, underscores only between digits
(the body of a Python decimal integer literal). -/
def pyDigitGroups : List Char → Bool
  | [] => false
  | c :: rest => c.isDigit && pyDigitsRest rest

/-- Decimal value of a digit/underscore sequence, underscores skipped. -/
def digitsVal (cs : List Char) : Nat :=
  cs.foldl (fun a c => if c = '_' then a else a * 10 + (c.toNat - 48)) 0

/-- Strip the whitespace Python's `int` tolerates at both ends. -/
def stripPySpaces (cs : List Char) : List Char :=
  (((cs.dropWhile isPySpace).reverse.dropWhile isPySpace)).reverse

/-- The numeral part of Python's `int(str)`: an optional sign followed by
digit groups; `none` models the `ValueError` branch. -/
def pyIntCore : List Char → Option Int
  | [] => Option.none
  | c :: rest =>
    if c = '+' then
      if pyDigitGroups rest then some (Int.ofNat (digitsVal rest)) else Option.none
    else if c = '-' then
      if pyDigitGroups rest then some (-(Int.ofNat (digitsVal rest))) else Option.none
    else
      if pyDigitGroups (c :: rest) then some (Int.ofNat (digitsVal (c :: rest)))
      else Option.none

/-- Model of Python's `int(value)` for a `str` argument: optional
surrounding whitespace, an optional sign, then digit groups separated by
single underscores.  `none` models the `ValueError` branch. -/
def pyIntParse (s : String) : Option Int :=
  pyIntCore (stripPySpaces s.toList)

/-- `convert2int` from app.py lines 33-38: `True` iff `int(value)` does not
raise `ValueError`. -/
def convert2int (value : String) : Bool :=
  (pyIntParse value).isSome

/-- The identifier coercion step shared by `update_item` (app.py lines 94-95)
and `delete_item` (lines 106-107):
`if isinstance(item_id, str) and convert2int(item_id): item_id = int(item_id)`. -/
def coerceId : Ident → Ident
  | .int n => .int n
  | .str s =>
    match pyIntParse s with
    | some n => .int n
    | Option.none => .str s

/-- `id_path = '/single/{id}'` (app.py line 10). -/
def id_path : String := "/single/{id}"

/-- `construct_path` from app.py lines 13-18. -/
def construct_path (base_path : String) (path : String) (is_plural : Bool) ( usePfx : Bool) : String :=
  let plural := if is_plural then "s" else ""
  if !usePfx then
    base_path ++ plural ++ path
  else
    path

/-- `get_tags` from app.py lines 21-22. -/
def get_tags (name : String) (use_name_as_tag : Bool) : List String :=
  if use_name_as_tag then [name] else []

/-- `get_prefix` from app.py lines 25-26 (the APIRouter prefix). -/
def getPfx (name : String) ( usePfx : Bool) : String :=
  if usePfx then "/" ++ name else ""

/-- pyrepositories `FieldTypes` (the subset the repository uses). -/
inductive FieldTypes where
  | STR
  | INT
  | LIST
  deriving DecidableEq, Repr

/-- pyrepositories `FieldKeyTypes`. -/
inductive FieldKeyTypes where
  | PRIMARY
  | REQUIRED
  | OPTIONAL
  deriving DecidableEq, Repr

/-- A query-parameter / default value as used by the filter fields. -/
inductive QVal where
  | qstr (s : String)
  | qint (n : Int)
  | qlist (xs : List String)
  | qnone
  deriving DecidableEq, Repr

/-- pyrepositories `FieldBase`: name, type, key type, default value. -/
structure FieldBase where
  name : String
  ftype : FieldTypes
  keyType : FieldKeyTypes
  default : QVal
  deriving DecidableEq, Repr

/-- A stored record; `serialize` is the external pyrepositories
serialization, modelled as data carried by the entity. -/
structure Entity where
  serial : List (String × String)
  deriving DecidableEq, Repr

/-- `entity.serialize()`. -/
def Entity.serialize (e : Entity) : List (String × String) :=
  e.serial

/-- A store table; the handlers only consume its `field_structure`. -/
structure Table where
  field_structure : List FieldBase
  deriving DecidableEq, Repr

/-- Exception-throwing Python computations (`str(e)` is the payload). -/
abbrev PyM (α : Type) := Except String α

/-- A filter expression handed to `get_by_filter`. -/
abbrev FilterExpr := List (String × QVal)

/-- The pyrepositories `DataSource` collaborator: a table lookup plus the
record operations the route handlers call.  Results that Python
truth-tests (`if result:`) are modelled as `Option`/`Bool`; any call may
raise. -/
structure DataSource where
  tables : List (String × Table)
  get_all : String → PyM (Option (List Entity))
  get_by_filter : String → FilterExpr → PyM (Option (List Entity))
  get_by_id : String → Ident → PyM (Option Entity)
  insert : String → Entity → PyM (Option Entity)
  update : String → Ident → Entity → PyM (Option Entity)
  delete : String → Ident → PyM Bool
  clear : String → PyM Bool

/-- `datasource.get_table(name)`; `none` models a falsy result. -/
def DataSource.get_table (ds : DataSource) (n : String) : Option Table :=
  (ds.tables.find? (fun p => p.1 = n)).map Prod.snd

/-- A request body after `item.model_dump()`: a flat key/value payload. -/
abbrev Payload := List (String × String)

/-- The `EntityFactory` collaborator (`src/crud/entities.py`, consumed via
`factory.create_entity(table.field_structure, item.model_dump())`); it
returns a record or raises. -/
structure EntityFactory where
  create_entity : List FieldBase → Payload → PyM Entity

/-- A value inside a handler's JSON response body. -/
inductive RV where
  | b (v : Bool)
  | s (v : String)
  | id (v : Ident)
  | ser (v : List (String × String))
  deriving DecidableEq, Repr

/-- A handler response body (a Python dict literal). -/
abbrev Resp := List (String × RV)

/-- The `try ... except Exception as e: return {'success': False,
'error': str(e)}` wrapper shared by the three mutating handlers. -/
def catchAll (m : PyM Resp) : Resp :=
  match m with
  | .ok r => r
  | .error e => [("success", RV.b false), ("error", RV.s e)]

/-- `format_entities` from app.py lines 29-30. -/
def format_entities (entities : List Entity) : List (List (String × String)) :=
  entities.map Entity.serialize

/-- Python `x or []` on an optional list result (`None` becomes `[]`;
on a list it is the identity, `[] or []` being `[]` as well). -/
def orEmpty (x : Option (List Entity)) : List Entity :=
  match x with
  | Option.none => []
  | some xs => xs

/-- `read_items` handler (app.py lines 60-62). -/
def read_items (ds : DataSource) (datatype : String) : PyM (List (List (String × String))) := do
  let r ← ds.get_all datatype
  pure (format_entities (orEmpty r))

/-- Modelled from the spec: `convert_field_to_filter` lives in
`src/crud/lib.py`, which is not among the sources.  Per the spec it turns
each declared filter field into a query parameter defaulting to the
field's declared default. -/
def convert_field_to_filter (filters : List FieldBase) : List (String × QVal) :=
  filters.map (fun f => (f.name, f.default))

/-- Modelled from the spec: `convert_dict_to_filter` lives in
`src/crud/lib.py`, which is not among the sources.  Per the spec, fields
left at their declared default are excluded from the filter expression
("unset" is signaled by equality to the declared default). -/
def convert_dict_to_filter (filters : List FieldBase) (fields : List (String × QVal)) : FilterExpr :=
  fields.filter (fun kv => !(filters.any (fun f => f.name = kv.1 && f.default = kv.2)))

/-- `filter_items` handler (app.py lines 67-72); `params` is the full
query-model dict (every declared filter field mapped to the supplied
value or its declared default). -/
def filter_items (ds : DataSource) (datatype : String) (filters : List FieldBase)
    (params : List (String × QVal)) : PyM (List (List (String × String))) := do
  let processed_filters := convert_dict_to_filter filters params
  let result ← ds.get_by_filter datatype processed_filters
  pure (format_entities (orEmpty result))

/-- `read_item` handler (app.py lines 74-76): returns the raw store
record, unserialized and unguarded. -/
def read_item (ds : DataSource) (datatype : String) (id : Ident) : PyM (Option Entity) :=
  ds.get_by_id datatype id

/-- `create_item` handler (app.py lines 78-88). -/
def create_item (ds : DataSource) (factory : EntityFactory) (table : Table)
    (datatype : String) (item : Payload) : Resp :=
  catchAll (do
    let entity ← factory.create_entity table.field_structure item
    let result ← ds.insert datatype entity
    match result with
    | some r => pure [("success", RV.b true), ("created_entity", RV.ser r.serialize)]
    | Option.none => pure [("success", RV.b false)])

/-- `update_item` handler (app.py lines 90-101). -/
def update_item (ds : DataSource) (factory : EntityFactory) (table : Table)
    (datatype : String) (item_id : Ident) (item : Payload) : Resp :=
  catchAll (do
    let entity ← factory.create_entity table.field_structure item
    let iid := coerceId item_id
    let result ← ds.update datatype iid entity
    match result with
    | some r => pure [("success", RV.b true), ("updated_entity", RV.ser r.serialize)]
    | Option.none => pure [("success", RV.b false)])

/-- `delete_item` handler (app.py lines 103-113). -/
def delete_item (ds : DataSource) (datatype : String) (item_id : Ident) : Resp :=
  catchAll (do
    let iid := coerceId item_id
    let result ← ds.delete datatype iid
    if result then
      pure [("success", RV.b true), ("deleted_id", RV.id iid)]
    else
      pure [("success", RV.b false)])

/-- `delete_all_items` handler (app.py lines 115-117): unguarded. -/
def delete_all_items (ds : DataSource) (datatype : String) : PyM Bool :=
  ds.clear datatype

/-- Python's `name.lower()` (ASCII case folding, which covers the
resource names this repository uses). -/
def pyLower (s : String) : String :=
  String.mk (s.data.map Char.toLower)

/-- An HTTP method of a registered route. -/
inductive Method where
  | GET
  | POST
  | PUT
  | DELETE
  deriving DecidableEq, Repr

/-- A registered route: method plus full path (APIRouter prefix already
prepended, as FastAPI does when matching). -/
structure Route where
  method : Method
  path : String
  deriving DecidableEq, Repr

/-- The seven route registrations performed by `CRUDApiRouter.__init__`
(app.py lines 60-117), with the filter route present only when
`len(filters) > 0`.  Paths are the APIRouter prefix concatenated with the
decorator path. -/
def routerRoutes (datatype : String) ( usePfx : Bool) (filters : List FieldBase) : List Route :=
  let base_path := "/" ++ datatype
  let pfx := getPfx datatype usePfx
  [Route.mk Method.GET (pfx ++ construct_path base_path "" true usePfx)]
  ++ (if filters.length > 0 then
        [Route.mk Method.GET (pfx ++ construct_path base_path "/filter" true usePfx)]
      else [])
  ++ [Route.mk Method.GET (pfx ++ construct_path base_path id_path false usePfx),
      Route.mk Method.POST (pfx ++ construct_path base_path "" false usePfx),
      Route.mk Method.PUT (pfx ++ construct_path base_path id_path false usePfx),
      Route.mk Method.DELETE (pfx ++ construct_path base_path id_path false usePfx),
      Route.mk Method.DELETE (pfx ++ construct_path base_path "" true usePfx)]

/-- The observable outcome of `CRUDApiRouter.__init__`: the resource's
lowercased name and the routes registered on the APIRouter. -/
structure CRUDRouter where
  datatype : String
  routes : List Route
  deriving DecidableEq, Repr

/-- `CRUDApiRouter.__init__` (app.py lines 42-117): lowercases the name,
looks the table up in the datasource and raises
`ValueError(f'Table {datatype} not found in datasource')` when the lookup
is falsy, before any route is registered; otherwise registers the seven
handlers. -/
def crudRouterInit (ds : DataSource) (name : String) ( usePfx : Bool)
    (filters : List FieldBase) : Except String CRUDRouter :=
  let datatype := (pyLower name)
  match ds.get_table datatype with
  | Option.none => .error ("Table " ++ datatype ++ " not found in datasource")
  | some _ => .ok (CRUDRouter.mk datatype (routerRoutes datatype usePfx filters))

/-- The registry-visible state of one `CRUDApiRouter`: an identity for the
underlying object and its private `__is_included` flag. -/
structure RouterState where
  rid : Nat
  included : Bool
  deriving DecidableEq, Repr

/-- `CRUDApiRouter.include` (app.py lines 129-130): sets `__is_included`. -/
def RouterState.include (r : RouterState) : RouterState :=
  { r with included := true }

/-- The state of a `CRUDApi`: the `__routers` dict (insertion-ordered, as
in Python), the log of `app.include_router` calls (by router identity),
and a counter minting router identities. -/
structure ApiState where
  routers : List (String × RouterState)
  attached : List Nat
  nextId : Nat
  deriving DecidableEq, Repr

/-- A fresh `CRUDApi` (empty `__routers`, nothing attached). -/
def apiInit : ApiState :=
  ApiState.mk [] [] 0

/-- Python dict assignment `d[k] = v`: replaces in place when the key
exists, appends otherwise. -/
def dictInsert (m : List (String × RouterState)) (k : String) (v : RouterState) :
    List (String × RouterState) :=
  if m.any (fun p => p.1 = k) then
    m.map (fun p => if p.1 = k then (k, v) else p)
  else
    m ++ [(k, v)]

/-- `CRUDApi.register_router` (app.py lines 151-154): builds a fresh
router (not included) and stores it under `datatype`, overwriting any
previous entry. -/
def register_router (st : ApiState) (datatype : String) : ApiState :=
  { st with
    routers := dictInsert st.routers datatype (RouterState.mk st.nextId false),
    nextId := st.nextId + 1 }

/-- `CRUDApi.include_router` (app.py lines 156-160): `register_router`,
then `app.include_router(router.get_base())`, then `router.include()` on
the router just stored under `datatype`. -/
def include_router (st : ApiState) (datatype : String) : ApiState :=
  let rid := st.nextId
  let st1 := register_router st datatype
  { st1 with
    attached := st1.attached ++ [rid],
    routers := st1.routers.map (fun p => if p.1 = datatype then (p.1, p.2.include) else p) }

/-- `CRUDApi.publish` (app.py lines 162-165): attaches every router whose
`is_included` flag is unset.  Note it never calls `router.include()`. -/
def publish (st : ApiState) : ApiState :=
  { st with
    attached := st.attached ++
      ((st.routers.filter (fun p => !p.2.included)).map (fun p => p.2.rid)) }

/-- A registry operation, for stating invariants over operation
sequences. -/
inductive RegOp where
  | reg (datatype : String)
  | inc (datatype : String)
  | pub
  deriving DecidableEq, Repr

/-- Apply one registry operation. -/
def applyOp (st : ApiState) : RegOp → ApiState
  | .reg n => register_router st n
  | .inc n => include_router st n
  | .pub => publish st

/-! Concrete fixtures, used to evaluate the development on closed inputs. -/

/-- A sample stored record. -/
def entA : Entity :=
  Entity.mk [("date", "2024-01-01"), ("status", "open")]

/-- A sample filter field (as in scripts/lighthouse.py). -/
def fbStatus : FieldBase :=
  FieldBase.mk "status" FieldTypes.STR FieldKeyTypes.OPTIONAL (QVal.qstr "")

/-- The `event` table. -/
def eventTable : Table :=
  Table.mk [FieldBase.mk "date" FieldTypes.STR FieldKeyTypes.PRIMARY (QVal.qstr "")]

/-- A benign datasource holding one `event` table with one record. -/
def eventDS : DataSource where
  tables := [("event", eventTable)]
  get_all := fun _ => .ok (some [entA])
  get_by_filter := fun _ _ => .ok (some [entA])
  get_by_id := fun _ _ => .ok (some entA)
  insert := fun _ e => .ok (some e)
  update := fun _ _ e => .ok (some e)
  delete := fun _ _ => .ok true
  clear := fun _ => .ok true

/-- A datasource with no tables at all. -/
def emptyDS : DataSource where
  tables := []
  get_all := fun _ => .ok Option.none
  get_by_filter := fun _ _ => .ok Option.none
  get_by_id := fun _ _ => .ok Option.none
  insert := fun _ _ => .ok Option.none
  update := fun _ _ _ => .ok Option.none
  delete := fun _ _ => .ok false
  clear := fun _ => .ok false

example : pyIntParse "123" = some 123 := by decide
example : pyIntParse "-5" = some (-5) := by decide
example : pyIntParse " 42 " = some 42 := by decide
example : pyIntParse "1_0" = some 10 := by decide
example : pyIntParse "1__0" = Option.none := by decide
example : pyIntParse "abc" = Option.none := by decide
example : pyIntParse "" = Option.none := by decide
example : pyIntParse "_1" = Option.none := by decide
example : pyIntParse "1_" = Option.none := by decide
example : pyIntParse "+7" = some 7 := by decide
example : pyIntParse "007" = some 7 := by decide
example : coerceId (Ident.str "-5") = Ident.int (-5) := by decide
example : coerceId (Ident.str "x2") = Ident.str "x2" := by decide
example : construct_path "/event" "" true false = "/events" := by decide
example : construct_path "/event" "" true true = "" := by decide
example : construct_path "/event" "/single/{id}" false false = "/event/single/{id}" := by decide

/-! Helper lemmas. -/

theorem not_space_of_digit {c : Char} (h : c.isDigit = true) : isPySpace c = false := by
  cases hs : isPySpace c with
  | false => rfl
  | true =>
    exfalso
    unfold isPySpace at hs
    simp only [Bool.or_eq_true, decide_eq_true_eq] at hs
    rcases hs with ((((h1 | h1) | h1) | h1) | h1) | h1 <;> (subst h1; exact absurd h (by decide))

theorem dropWhile_spaces_eq_self (l : List Char) (h : ∀ c ∈ l, isPySpace c = false) :
    l.dropWhile isPySpace = l := by
  cases l with
  | nil => rfl
  | cons c cs => simp [List.dropWhile_cons, h c (List.mem_cons_self c cs)]

theorem stripPySpaces_eq_self (l : List Char) (h : ∀ c ∈ l, isPySpace c = false) :
    stripPySpaces l = l := by
  unfold stripPySpaces
  rw [dropWhile_spaces_eq_self l h,
      dropWhile_spaces_eq_self l.reverse (fun c hc => h c (List.mem_reverse.mp hc)),
      List.reverse_reverse]

theorem pyDigitsRest_of_digits (l : List Char) (h : ∀ c ∈ l, c.isDigit = true) :
    pyDigitsRest l = true := by
  induction l with
  | nil => rfl
  | cons c cs ih =>
    have hc := h c (List.mem_cons_self c cs)
    have hne : c ≠ '_' := fun he => absurd hc (he ▸ by decide)
    unfold pyDigitsRest
    rw [if_neg hne]
    simp [hc, ih (fun d hd => h d (List.mem_cons_of_mem c hd))]

theorem pyIntCore_of_digits (c : Char) (cs : List Char)
    (h : ∀ d ∈ c :: cs, d.isDigit = true) :
    pyIntCore (c :: cs) = some (Int.ofNat (digitsVal (c :: cs))) := by
  have hc := h c (List.mem_cons_self c cs)
  have hplus : c ≠ '+' := fun he => absurd hc (he ▸ by decide)
  have hminus : c ≠ '-' := fun he => absurd hc (he ▸ by decide)
  have hg : pyDigitGroups (c :: cs) = true := by
    unfold pyDigitGroups
    simp [hc, pyDigitsRest_of_digits cs (fun d hd => h d (List.mem_cons_of_mem c hd))]
  simp [pyIntCore, hplus, hminus, hg]

theorem pyIntParse_of_digits (s : String) (hne : s.toList ≠ [])
    (h : ∀ c ∈ s.toList, c.isDigit = true) :
    pyIntParse s = some (Int.ofNat (digitsVal s.toList)) := by
  unfold pyIntParse
  rw [stripPySpaces_eq_self s.toList (fun c hc => not_space_of_digit (h c hc))]
  obtain ⟨c, cs, hl⟩ := List.exists_cons_of_ne_nil hne
  rw [hl]
  exact pyIntCore_of_digits c cs (hl ▸ h)

theorem coerceId_idem (i : Ident) : coerceId (coerceId i) = coerceId i := by
  cases i with
  | int n => rfl
  | str s =>
    cases h : pyIntParse s with
    | none => simp [coerceId, h]
    | some n => simp [coerceId, h]

/-! Claim theorems. -/

/-- C1: the claim says a second `publish` attaches no route group, the
attach count staying constant.  The code violates this: `publish` checks
`is_included` but never sets it, so a router added via `register_router`
is re-attached by every further `publish` call.  Evaluating the model at
the failing input: one `register_router`, then `publish` twice — the
attach count goes 1, then 2. -/
theorem c1_publish_not_idempotent_eval :
    ((publish (register_router apiInit "event")).attached.length = 1) ∧
    ((publish (publish (register_router apiInit "event"))).attached.length = 2) ∧
    ((publish (include_router apiInit "event")).attached.length = 1) := by decide

/-- C2: counterexample to "for any other string the original string is
passed unchanged": `"-5"` is not composed only of decimal digits, yet the
coercion step of the update/delete handlers converts it to the integer
`-5` (Python's `int("-5")` succeeds), so the store receives `-5`, not the
original string. -/
theorem c2_counterexample :
    coerceId (Ident.str "-5") = Ident.int (-5) ∧
    ¬(∀ c ∈ "-5".toList, c.isDigit = true) ∧
    delete_item eventDS "event" (Ident.str "-5") =
      [("success", RV.b true), ("deleted_id", RV.id (Ident.int (-5)))] := by decide

/-- C2 (amended): a string identifier is converted to an integer exactly
when Python's `int()` parse succeeds — optional surrounding whitespace,
an optional sign, and digit groups separated by single underscores.
Digit-only strings are converted (to their decimal value); a string the
parse rejects is passed unchanged; and both mutating handlers behave on a
string identifier exactly as on its coerced form. -/
theorem c2_ident_coercion (s : String) :
    (convert2int s = false → coerceId (Ident.str s) = Ident.str s) ∧
    (∀ n : Int, pyIntParse s = some n → coerceId (Ident.str s) = Ident.int n) ∧
    (s.toList ≠ [] → (∀ c ∈ s.toList, c.isDigit = true) →
      coerceId (Ident.str s) = Ident.int (Int.ofNat (digitsVal s.toList))) ∧
    (∀ ds datatype,
      delete_item ds datatype (coerceId (Ident.str s)) = delete_item ds datatype (Ident.str s)) ∧
    (∀ ds factory table datatype item,
      update_item ds factory table datatype (coerceId (Ident.str s)) item =
        update_item ds factory table datatype (Ident.str s) item) := by
  refine ⟨?_, ?_, ?_, ?_, ?_⟩
  · intro h
    unfold convert2int at h
    cases hp : pyIntParse s with
    | none => simp [coerceId, hp]
    | some n => rw [hp] at h; simp at h
  · intro n h
    simp [coerceId, h]
  · intro hne hdig
    simp [coerceId, pyIntParse_of_digits s hne hdig]
  · intro ds datatype
    unfold delete_item
    rw [coerceId_idem]
  · intro ds factory table datatype item
    unfold update_item
    rw [coerceId_idem]

/-- C2: witness instantiating the amended theorem at concrete inputs. -/
theorem c2_ident_coercion_witness :
    coerceId (Ident.str "x7") = Ident.str "x7" ∧
    coerceId (Ident.str "007") = Ident.int (Int.ofNat (digitsVal "007".toList)) := by
  refine ⟨(c2_ident_coercion "x7").1 (by decide), ?_⟩
  exact (c2_ident_coercion "007").2.2.1 (by decide) (by decide)

/-- C3: counterexample.  The claim predicts the collection path is the
pluralized `/events` when automatic prefixing is on (the default), and
the raw path unmodified when the caller opts out.  The code does the
opposite: with prefixing on the collection route is `/event` (prefix plus
raw empty path), and with prefixing off it is the pluralized `/events`. -/
theorem c3_counterexample :
    (getPfx "event" true ++ construct_path "/event" "" true true = "/event") ∧
    (("/event" : String) ≠ "/events") ∧
    (getPfx "event" false ++ construct_path "/event" "" true false = "/events") ∧
    (("/events" : String) ≠ "") := by decide

/-- C4: the three mutating handlers are total (the `try` encloses the
factory call, the identifier coercion and the store call): whatever the
factory and store do — raise, decline (falsy result), or succeed — the
response is exactly the structured body the spec describes:
`{success: false, error: str(e)}` on any exception, `{success: false}` on
a decline, `{success: true}` with the created/updated entity or the
deleted id on success. -/
theorem c4_mutators_error_policy (ds : DataSource) (factory : EntityFactory) (table : Table)
    (datatype : String) (item_id : Ident) (item : Payload) :
    (create_item ds factory table datatype item =
      match factory.create_entity table.field_structure item with
      | .error e => [("success", RV.b false), ("error", RV.s e)]
      | .ok entity =>
        match ds.insert datatype entity with
        | .error e => [("success", RV.b false), ("error", RV.s e)]
        | .ok (some r) => [("success", RV.b true), ("created_entity", RV.ser r.serialize)]
        | .ok Option.none => [("success", RV.b false)]) ∧
    (update_item ds factory table datatype item_id item =
      match factory.create_entity table.field_structure item with
      | .error e => [("success", RV.b false), ("error", RV.s e)]
      | .ok entity =>
        match ds.update datatype (coerceId item_id) entity with
        | .error e => [("success", RV.b false), ("error", RV.s e)]
        | .ok (some r) => [("success", RV.b true), ("updated_entity", RV.ser r.serialize)]
        | .ok Option.none => [("success", RV.b false)]) ∧
    (delete_item ds datatype item_id =
      match ds.delete datatype (coerceId item_id) with
      | .error e => [("success", RV.b false), ("error", RV.s e)]
      | .ok true => [("success", RV.b true), ("deleted_id", RV.id (coerceId item_id))]
      | .ok false => [("success", RV.b false)]) := by
  refine ⟨?_, ?_, ?_⟩
  · cases hf : factory.create_entity table.field_structure item with
    | error e => simp [create_item, catchAll, hf, bind, Except.bind]
    | ok entity =>
      cases hi : ds.insert datatype entity with
      | error e => simp [create_item, catchAll, hf, hi, bind, Except.bind]
      | ok r =>
        cases r with
        | none => simp [create_item, catchAll, hf, hi, bind, Except.bind, pure, Except.pure]
        | some x => simp [create_item, catchAll, hf, hi, bind, Except.bind, pure, Except.pure]
  · cases hf : factory.create_entity table.field_structure item with
    | error e => simp [update_item, catchAll, hf, bind, Except.bind]
    | ok entity =>
      cases hi : ds.update datatype (coerceId item_id) entity with
      | error e => simp [update_item, catchAll, hf, hi, bind, Except.bind]
      | ok r =>
        cases r with
        | none => simp [update_item, catchAll, hf, hi, bind, Except.bind, pure, Except.pure]
        | some x => simp [update_item, catchAll, hf, hi, bind, Except.bind, pure, Except.pure]
  · cases hd : ds.delete datatype (coerceId item_id) with
    | error e => simp [delete_item, catchAll, hd, bind, Except.bind]
    | ok b =>
      cases b with
      | false => simp [delete_item, catchAll, hd, bind, Except.bind, pure, Except.pure]
      | true => simp [delete_item, catchAll, hd, bind, Except.bind, pure, Except.pure]

/-- C9: the list handler serializes every record the store returns, and
returns the empty collection (not an error, not null) when the store
returns `None`. -/
theorem c9_list_serializes (ds : DataSource) (datatype : String) :
    (ds.get_all datatype = Except.ok Option.none →
      read_items ds datatype = Except.ok []) ∧
    (∀ es : List Entity, ds.get_all datatype = Except.ok (some es) →
      read_items ds datatype = Except.ok (es.map Entity.serialize)) := by
  constructor
  · intro h
    simp [read_items, h, orEmpty, format_entities, bind, Except.bind, pure, Except.pure]
  · intro es h
    simp [read_items, h, orEmpty, format_entities, bind, Except.bind, pure, Except.pure]

/-- C9: witness — the list handler on the sample store returns the
serialized sample record. -/
theorem c9_list_serializes_witness :
    read_items eventDS "event" = Except.ok ([entA].map Entity.serialize) :=
  (c9_list_serializes eventDS "event").2 [entA] rfl

/-- C10: on a successful delete whose path identifier was a coercible
string, `deleted_id` in the response is the coerced integer identifier
that was passed to the store, not the original string. -/
theorem c10_deleted_id_coerced (ds : DataSource) (datatype : String) (s : String) (n : Int)
    (hp : pyIntParse s = some n)
    (hd : ds.delete datatype (Ident.int n) = Except.ok true) :
    delete_item ds datatype (Ident.str s) =
      [("success", RV.b true), ("deleted_id", RV.id (Ident.int n))] := by
  have hc : coerceId (Ident.str s) = Ident.int n := by simp [coerceId, hp]
  unfold delete_item
  rw [hc]
  simp [catchAll, hd, bind, Except.bind, pure, Except.pure]

/-- C10: witness — deleting with the string `"42"` reports the integer
`42` as `deleted_id`. -/
theorem c10_deleted_id_coerced_witness :
    delete_item eventDS "event" (Ident.str "42") =
      [("success", RV.b true), ("deleted_id", RV.id (Ident.int 42))] :=
  c10_deleted_id_coerced eventDS "event" "42" 42 (by decide) rfl

/-- C5: when every declared filter field carries its declared default
(the query-model dict produced by `convert_field_to_filter` itself), the
processed filter expression is empty, so — the store treating the empty
filter as "no filter", i.e. `get_by_filter` on `[]` agreeing with
`get_all` — the filter endpoint returns exactly what the unfiltered list
endpoint returns. -/
theorem c5_default_filter_unfiltered (ds : DataSource) (datatype : String)
    (filters : List FieldBase)
    (hstore : ds.get_by_filter datatype [] = ds.get_all datatype) :
    filter_items ds datatype filters (convert_field_to_filter filters) =
      read_items ds datatype := by
  have hempty : convert_dict_to_filter filters (convert_field_to_filter filters) = [] := by
    unfold convert_dict_to_filter
    rw [List.filter_eq_nil_iff]
    intro kv hkv
    simp only [convert_field_to_filter, List.mem_map] at hkv
    obtain ⟨f, hf, rfl⟩ := hkv
    simp [List.any_eq_true]
    exact ⟨f, hf, rfl, rfl⟩
  simp only [filter_items, read_items, hempty, hstore]

/-- C5: witness — on the sample store, filtering with every field at its
declared default equals the unfiltered list. -/
theorem c5_default_filter_unfiltered_witness :
    filter_items eventDS "event" [fbStatus] (convert_field_to_filter [fbStatus]) =
      read_items eventDS "event" :=
  c5_default_filter_unfiltered eventDS "event" [fbStatus] rfl

/-- C8: when the datasource has no table for the lowercased resource
name, `CRUDApiRouter.__init__` raises
`ValueError(f'Table {datatype} not found in datasource')` immediately,
before any route is registered, instead of returning a route group. -/
theorem c8_missing_table_fatal (ds : DataSource) (name : String) ( u : Bool)
    (fs : List FieldBase) (h : ds.get_table (pyLower name) = Option.none) :
    crudRouterInit ds name u fs =
      Except.error ("Table " ++ (pyLower name) ++ " not found in datasource") := by
  simp [crudRouterInit, h]

/-- C8: witness — constructing a route group for `"Event"` over the empty
datasource fails with the table-not-found error. -/
theorem c8_missing_table_fatal_witness :
    crudRouterInit emptyDS "Event" true [] =
      Except.error ("Table " ++ (pyLower "Event") ++ " not found in datasource") :=
  c8_missing_table_fatal emptyDS "Event" true [] (by decide)

/-- C3 (amended): the collection endpoints (list, delete-all) are served
at the pluralized path `/{resource}s` exactly when the caller opts OUT of
automatic prefixing; with prefixing enabled (the default) the raw
decorator path is used unmodified under the `/{resource}` prefix, so the
collection endpoints sit at `/{resource}`.  The single-item path appends
`/single/{id}` in both modes. -/
theorem c3_amended_paths (dt : String) (fs : List FieldBase) :
    (Route.mk Method.GET ("/" ++ dt ++ "s") ∈ routerRoutes dt false fs) ∧
    (Route.mk Method.DELETE ("/" ++ dt ++ "s") ∈ routerRoutes dt false fs) ∧
    (Route.mk Method.GET ("/" ++ dt) ∈ routerRoutes dt true fs) ∧
    (Route.mk Method.DELETE ("/" ++ dt) ∈ routerRoutes dt true fs) ∧
    (Route.mk Method.GET ("/" ++ dt ++ "/single/{id}") ∈ routerRoutes dt false fs) ∧
    (Route.mk Method.GET ("/" ++ dt ++ "/single/{id}") ∈ routerRoutes dt true fs) := by
  refine ⟨?_, ?_, ?_, ?_, ?_, ?_⟩ <;>
    simp [routerRoutes, construct_path, getPfx, id_path, String.append_assoc,
          String.append_empty, String.empty_append, List.mem_append]

theorem append_len_ne {a x y : String} (h : x.length ≠ y.length) : a ++ x ≠ a ++ y := by
  intro he
  have hl := congrArg String.length he
  rw [String.length_append, String.length_append] at hl
  omega

theorem filter_route_mem_iff (dt : String) ( u : Bool) (fs : List FieldBase) :
    ((Route.mk Method.GET (getPfx dt u ++ construct_path ("/" ++ dt) "/filter" true u))
      ∈ routerRoutes dt u fs) ↔ fs ≠ [] := by
  constructor
  · intro hmem hfs
    subst hfs
    cases u <;>
      · simp [routerRoutes, construct_path, getPfx, id_path] at hmem
        rcases hmem with he | he <;>
          · have hl := congrArg String.length he
            simp only [String.length_append,
              show ("/filter" : String).length = 7 from rfl,
              show ("/single/{id}" : String).length = 12 from rfl,
              show ("s" : String).length = 1 from rfl] at hl
            omega
  · intro hfs
    have hpos : 0 < fs.length := List.length_pos.mpr hfs
    simp [routerRoutes, hpos, List.mem_append]

/-- C6: for a successfully constructed route group, the filter route
(`GET` on the `/filter` collection path) exists if and only if a
non-empty filter field list was supplied at registration. -/
theorem c6_filter_route_iff (ds : DataSource) (name : String) ( u : Bool)
    (fs : List FieldBase) (r : CRUDRouter)
    (h : crudRouterInit ds name u fs = Except.ok r) :
    ((Route.mk Method.GET
        (getPfx (pyLower name) u ++ construct_path ("/" ++ (pyLower name)) "/filter" true u))
      ∈ r.routes) ↔ fs ≠ [] := by
  have hr : r.routes = routerRoutes (pyLower name) u fs := by
    simp only [crudRouterInit] at h
    cases hg : ds.get_table (pyLower name) with
    | none => rw [hg] at h; exact Except.noConfusion h
    | some t =>
      rw [hg] at h
      injection h with h2
      rw [← h2]
  rw [hr]
  exact filter_route_mem_iff (pyLower name) u fs

/-- C6: witness — with one filter field the filter route exists on the
sample datasource. -/
theorem c6_filter_route_iff_witness :
    (Route.mk Method.GET
        (getPfx (pyLower "event") true ++ construct_path ("/" ++ (pyLower "event")) "/filter" true true))
      ∈ (CRUDRouter.mk (pyLower "event") (routerRoutes (pyLower "event") true [fbStatus])).routes :=
  (c6_filter_route_iff eventDS "event" true [fbStatus]
    (CRUDRouter.mk (pyLower "event") (routerRoutes (pyLower "event") true [fbStatus]))
    rfl).mpr (by decide)

/-- C7: counterexample to "a route group once registered is never deleted
from the registry".  Registering the same resource name twice makes
`register_router` overwrite the dict entry: the first route group
(identity 0) is deleted and replaced by a fresh, unattached one
(identity 1).  In particular, after `include_router` the name's attached
flag reads true, and a further `register_router` on the same name makes
it read false again. -/
theorem c7_counterexample :
    ((register_router apiInit "event").routers = [("event", RouterState.mk 0 false)]) ∧
    ((register_router (register_router apiInit "event") "event").routers
      = [("event", RouterState.mk 1 false)]) ∧
    ((include_router apiInit "event").routers = [("event", RouterState.mk 0 true)]) ∧
    ((register_router (include_router apiInit "event") "event").routers
      = [("event", RouterState.mk 1 false)]) := by decide

/-- C7 (amended): as long as `register_router`/`include_router` are not
invoked again with an already-registered resource name, the state machine
is monotone: every registered route group survives every further
operation with its identity intact, and its attached flag, once set, is
never unset (`publish` never touches the registry at all).
Re-registering an existing name, however, replaces — deletes — that
name's previous route group. -/
theorem c7_registry_monotone (st : ApiState) (op : RegOp) (n : String) (r : RouterState)
    (hmem : (n, r) ∈ st.routers)
    (hfresh : ∀ m, (op = RegOp.reg m ∨ op = RegOp.inc m) → m ≠ n) :
    ∃ r', (n, r') ∈ (applyOp st op).routers ∧ r'.rid = r.rid ∧
      (r.included = true → r'.included = true) := by
  cases op with
  | pub => exact ⟨r, hmem, rfl, fun h => h⟩
  | reg m =>
    have hne : m ≠ n := hfresh m (Or.inl rfl)
    refine ⟨r, ?_, rfl, fun h => h⟩
    simp only [applyOp, register_router, dictInsert]
    by_cases hk : st.routers.any (fun p => p.1 = m)
    · rw [if_pos hk]
      exact List.mem_map.mpr ⟨(n, r), hmem, by simp [hne.symm]⟩
    · rw [if_neg hk]
      exact List.mem_append_left _ hmem
  | inc m =>
    have hne : m ≠ n := hfresh m (Or.inr rfl)
    have hmem1 : (n, r) ∈ (register_router st m).routers := by
      simp only [register_router, dictInsert]
      by_cases hk : st.routers.any (fun p => p.1 = m)
      · rw [if_pos hk]
        exact List.mem_map.mpr ⟨(n, r), hmem, by simp [hne.symm]⟩
      · rw [if_neg hk]
        exact List.mem_append_left _ hmem
    refine ⟨r, ?_, rfl, fun h => h⟩
    simp only [applyOp, include_router]
    exact List.mem_map.mpr ⟨(n, r), hmem1, by simp [hne.symm]⟩

/-- C7: witness — the group registered for `"event"` survives a
`publish` with its identity and flag intact. -/
theorem c7_registry_monotone_witness :
    ∃ r', ("event", r') ∈ (applyOp (register_router apiInit "event") RegOp.pub).routers ∧
      r'.rid = (RouterState.mk 0 false).rid ∧
      ((RouterState.mk 0 false).included = true → r'.included = true) :=
  c7_registry_monotone (register_router apiInit "event") RegOp.pub "event"
    (RouterState.mk 0 false) (by decide)
    (fun m h => by rcases h with h | h <;> exact absurd h (by simp))
